import Mathlib

/-!
Verification of the subscription engine of the `unraid-mcp` server
(`src/unraid_mcp/subscriptions/manager.py` and
`src/unraid_mcp/subscriptions/diagnostics.py`), shallowly embedded in Lean.

Strings are modelled as `List Char`; Python `dict` fields of the manager are
modelled as functions `Str → Option _`; JSON values as the inductive `JVal`;
the asynchronous subscription loop is modelled as a deterministic function
consuming a script of environment behaviours (one per loop iteration).
-/

namespace UnraidMCP

/-- Strings, modelled as lists of characters. -/
abbrev Str := List Char

/-- Shorthand to write a character-list string from a string literal. -/
def str (s : String) : Str := s.toList

/-- Python `s.startswith(p)`: `startsWith p s` is true iff `p` is a prefix of `s`. -/
def startsWith : Str → Str → Bool
  | [], _ => true
  | _ :: _, [] => false
  | p :: ps, c :: cs => p == c && startsWith ps cs

/-- Python `s.endswith(p)`: `p` is a suffix of `s`. -/
def endsWith (p s : Str) : Bool := startsWith p.reverse s.reverse

/-- Python `s.rstrip("/")`: remove all trailing `'/'` characters. -/
def rstripSlash (s : Str) : Str := (s.reverse.dropWhile (· = '/')).reverse

/-- Fuel-driven worker for Python `str.replace` (all non-overlapping
occurrences, scanned left to right).  The fuel bounds the number of steps;
`pyReplace` supplies fuel `s.length`, which is enough when `old ≠ []`. -/
def replaceAllFuel (old new : Str) : Nat → Str → Str
  | 0, s => s
  | _ + 1, [] => []
  | fuel + 1, c :: cs =>
    if startsWith old (c :: cs) && !old.isEmpty then
      new ++ replaceAllFuel old new fuel (List.drop old.length (c :: cs))
    else
      c :: replaceAllFuel old new fuel cs

/-- Python `s.replace(old, new)` for non-empty `old`. -/
def pyReplace (s old new : Str) : Str := replaceAllFuel old new s.length s

/-- `occursIn old s`: `old` occurs as a contiguous substring of `s`. -/
def occursIn (old : Str) : Str → Bool
  | [] => startsWith old []
  | c :: cs => startsWith old (c :: cs) || occursIn old cs

/-! ## JSON values

Parsed JSON messages (`json.loads`) are modelled by `JVal`.  Python
truthiness (`if payload.get("data"):`) is `truthy`. -/

/-- A parsed JSON value as produced by Python's `json.loads`. -/
inductive JVal where
  | null : JVal
  | bool : Bool → JVal
  | num : ℚ → JVal
  | jstr : Str → JVal
  | arr : List JVal → JVal
  | obj : List (Str × JVal) → JVal

/-- Python truthiness of a JSON value (`None`, `False`, `0`, `""`, `[]`, `{}`
are falsy, everything else truthy). -/
def truthy : JVal → Bool
  | .null => false
  | .bool b => b
  | .num q => !(q == 0)
  | .jstr s => !s.isEmpty
  | .arr xs => !xs.isEmpty
  | .obj fs => !fs.isEmpty

/-- `d.get(k)` on a JSON object's field list: the first binding of `k`. -/
def getField (fs : List (Str × JVal)) (k : Str) : Option JVal :=
  (fs.find? (fun p => p.1 == k)).map (·.2)

/-- Truthiness of `d.get(k)` (missing key → `None` → falsy). -/
def getTruthy (fs : List (Str × JVal)) (k : Str) : Bool :=
  match getField fs k with
  | none => false
  | some v => truthy v

/-- Python `d.get(k) == s` where `s` is a `str`: true iff the field is a
string equal to `s`. -/
def fieldIsStr (fs : List (Str × JVal)) (k : Str) (s : Str) : Bool :=
  match getField fs k with
  | some (.jstr t) => t == s
  | _ => false

/-! ## Manager state

The per-name `dict`s of `SubscriptionManager.__init__`
(`manager.py` lines 26-39), with `datetime.now()` timestamps as `Nat`. -/

/-- Last-error values recorded in `self.last_error[name]` (the formatted
message strings of `manager.py`, with their interpolated payload kept). -/
inductive ErrVal where
  | invalidJsonInit : ErrVal                -- "Invalid JSON in init response: ..."
  | authError : JVal → ErrVal               -- "Authentication error: {payload}"
  | graphqlErrors : JVal → ErrVal           -- "GraphQL errors: {payload['errors']}"
  | subscriptionError : JVal → ErrVal       -- "Subscription error: {payload}"
  | timeoutError : ErrVal                   -- "Connection or authentication timeout"
  | connClosed : ErrVal                     -- "WebSocket connection closed: ..."
  | invalidURIError : ErrVal                -- "Invalid WebSocket URI: ..."
  | otherError : ErrVal                     -- "Unexpected error: ..."

/-- Embedding of the `SubscriptionData` dataclass (`core/types.py`). -/
structure SubscriptionData where
  data : JVal
  lastUpdated : Nat
  subscriptionType : Str

/-- The mutable per-name state of `SubscriptionManager`: `active_subscriptions`
(task handles reduced to the set of names), `resource_data`,
`reconnect_attempts`, `connection_states` and `last_error`. -/
structure MState where
  active : List Str
  resourceData : Str → Option SubscriptionData
  reconnectAttempts : Str → Option Nat
  connectionStates : Str → Option Str
  lastError : Str → Option ErrVal

/-- Point update of a string-keyed dictionary. -/
def upd {α : Type} (f : Str → Option α) (k : Str) (v : α) : Str → Option α :=
  fun m => if m = k then some v else f m

/-- The manager's state at construction time: no active tasks, empty dicts. -/
def emptyState : MState :=
  { active := []
    resourceData := fun _ => none
    reconnectAttempts := fun _ => none
    connectionStates := fun _ => none
    lastError := fun _ => none }

/-! Connection-state strings written by the manager. -/

def startingState : Str := str "starting"
def activeState : Str := str "active"
def connectedState : Str := str "connected"
def authenticatedState : Str := str "authenticated"
def authFailedState : Str := str "auth_failed"
def subscribedState : Str := str "subscribed"
def errorState : Str := str "error"
def completedState : Str := str "completed"
def timeoutState : Str := str "timeout"
def disconnectedState : Str := str "disconnected"
def invalidUriState : Str := str "invalid_uri"
def reconnectingState : Str := str "reconnecting"
def maxRetriesState : Str := str "max_retries_exceeded"
def stoppedState : Str := str "stopped"
def notStartedState : Str := str "not_started"

/-- The one registry entry's name (`manager.py` line 43). -/
def logFileName : Str := str "logFileSubscription"

/-! ## Manager operations (`manager.py` lines 93-143, 445-498) -/

/-- Embedding of `SubscriptionManager.start_subscription` (lines 93-125):
if the name already has an active task, return unchanged; otherwise reset
`reconnect_attempts[name] = 0`, set state `"starting"`, create the task
(modelled as always succeeding), register it and set state `"active"`. -/
def startSubscription (n : Str) (s : MState) : MState :=
  if n ∈ s.active then s
  else
    let s1 := { s with
      reconnectAttempts := upd s.reconnectAttempts n 0
      connectionStates := upd s.connectionStates n startingState }
    { s1 with
      active := n :: s1.active
      connectionStates := upd s1.connectionStates n activeState }

/-- Embedding of `SubscriptionManager.stop_subscription` (lines 127-143):
if an active task exists, cancel it (modelled as removal from the active
set) and set state `"stopped"`; otherwise do nothing. -/
def stopSubscription (n : Str) (s : MState) : MState :=
  if n ∈ s.active then
    { s with
      active := s.active.erase n
      connectionStates := upd s.connectionStates n stoppedState }
  else s

/-- Embedding of `SubscriptionManager.get_resource_data` (lines 445-456):
the cached payload's `data` field, or `None`. -/
def getResourceData (n : Str) (s : MState) : Option JVal :=
  (s.resourceData n).map (·.data)

/-- Embedding of `SubscriptionManager.list_active_subscriptions` (lines 458-462). -/
def listActiveSubscriptions (s : MState) : List Str := s.active

/-- One registry entry of `self.subscription_configs` (lines 42-57). -/
structure ConfigEntry where
  resource : Str
  description : Str
  autoStart : Bool

/-- The static subscription registry (lines 42-57): the single
`logFileSubscription` entry, with `auto_start = False`. -/
def subscriptionConfigs : List (Str × ConfigEntry) :=
  [(logFileName,
    { resource := str "unraid://logs/stream"
      description := str "Real-time log file streaming"
      autoStart := false })]

/-- The `runtime` part of one status entry (lines 475-480). -/
structure StatusRuntime where
  active : Bool
  connectionState : Str
  reconnectAttempts : Nat
  lastError : Option ErrVal

/-- One entry of the diagnostic status map (lines 469-493); the
`age_seconds` computation is reduced to exposing `last_updated`. -/
structure StatusEntry where
  resource : Str
  description : Str
  autoStart : Bool
  runtime : StatusRuntime
  dataAvailable : Bool
  dataLastUpdated : Option Nat

/-- Embedding of `SubscriptionManager.get_subscription_status`
(lines 464-498): one entry per registry config. -/
def getSubscriptionStatus (s : MState) : List (Str × StatusEntry) :=
  subscriptionConfigs.map fun p =>
    (p.1,
      { resource := p.2.resource
        description := p.2.description
        autoStart := p.2.autoStart
        runtime :=
          { active := p.1 ∈ s.active
            connectionState := (s.connectionStates p.1).getD notStartedState
            reconnectAttempts := (s.reconnectAttempts p.1).getD 0
            lastError := s.lastError p.1 }
        dataAvailable := (s.resourceData p.1).isSome
        dataLastUpdated := (s.resourceData p.1).map (·.lastUpdated) })

/-! ## WebSocket URL derivation and protocol dialect -/

def httpsScheme : Str := str "https://"
def httpScheme : Str := str "http://"
def wssScheme : Str := str "wss://"
def wsScheme : Str := str "ws://"
def graphqlSuffix : Str := str "/graphql"

/-- Scheme substitution of `manager.py` lines 172-177: `https://` → `wss://`,
else `http://` → `ws://`, else unchanged. -/
def schemeToWs (url : Str) : Str :=
  if startsWith httpsScheme url then wssScheme ++ url.drop 8
  else if startsWith httpScheme url then wsScheme ++ url.drop 7
  else url

/-- The subscription loop's WebSocket URL (`manager.py` lines 169-180):
scheme substitution, then append `/graphql` (after stripping trailing
slashes) unless the URL already ends in `/graphql`. -/
def managerWsUrl (url : Str) : Str :=
  let u := schemeToWs url
  if endsWith graphqlSuffix u then u else rstripSlash u ++ graphqlSuffix

/-- The diagnostic tool's WebSocket URL (`diagnostics.py` lines 49-52):
`str.replace` of both schemes (all occurrences), then `+ "/graphql"`
unconditionally. -/
def diagWsUrl (url : Str) : Str :=
  pyReplace (pyReplace url httpsScheme wssScheme) httpScheme wsScheme ++ graphqlSuffix

/-- The transport-dialect subprotocol name `graphql-transport-ws`. -/
def transportProto : Str := str "graphql-transport-ws"

/-- The legacy subprotocol name `graphql-ws`. -/
def legacyProto : Str := str "graphql-ws"

/-- Message type of the subscribe message (`manager.py` lines 287-289):
`"subscribe"` for the transport dialect, `"start"` otherwise. -/
def startMsgType (proto : Str) : Str :=
  if proto = transportProto then str "subscribe" else str "start"

/-- Message type the receive loop matches for data (`manager.py`
lines 322-324): `"next"` for the transport dialect, `"data"` otherwise. -/
def expectedDataType (proto : Str) : Str :=
  if proto = transportProto then str "next" else str "data"

/-! ## The receive-loop message handler (`manager.py` lines 311-410)

One iteration of `async for message in websocket`.  An undecodable frame is
`none` (the `json.JSONDecodeError` handler skips it); a decoded frame that is
not a JSON object makes `data.get(...)` raise, which the generic per-message
handler also turns into a skip. -/

/-- Result of handling one incoming frame. -/
structure HandleResult where
  state : MState
  pongSent : Bool
  breakLoop : Bool

/-- Dispatch on one incoming frame, exactly following the `if/elif` chain of
`manager.py` lines 326-387: a matching data message with a truthy
`payload["data"]` overwrites the cache entry; a truthy `payload["errors"]`
records `last_error`; `ping` answers with `pong`; `error` records
`last_error` and state `"error"`; `complete` sets state `"completed"` and
breaks the receive loop; everything else is ignored. -/
def handleMessage (n proto : Str) (now : Nat) (frame : Option JVal) (s : MState) :
    HandleResult :=
  match frame with
  | none => ⟨s, false, false⟩
  | some v =>
    match v with
    | .obj fs =>
      if fieldIsStr fs (str "type") (expectedDataType proto) &&
          fieldIsStr fs (str "id") n then
        match (getField fs (str "payload")).getD (.obj []) with
        | .obj pfs =>
          if getTruthy pfs (str "data") then
            let cached : SubscriptionData :=
              { data := (getField pfs (str "data")).getD .null
                lastUpdated := now
                subscriptionType := n }
            ⟨{ s with resourceData := upd s.resourceData n cached }, false, false⟩
          else if getTruthy pfs (str "errors") then
            let e := ErrVal.graphqlErrors ((getField pfs (str "errors")).getD .null)
            ⟨{ s with lastError := upd s.lastError n e }, false, false⟩
          else ⟨s, false, false⟩
        | _ => ⟨s, false, false⟩
      else if fieldIsStr fs (str "type") (str "ping") then
        ⟨s, true, false⟩
      else if fieldIsStr fs (str "type") (str "error") then
        ⟨{ s with
            lastError := upd s.lastError n
              (.subscriptionError ((getField fs (str "payload")).getD (.obj [])))
            connectionStates := upd s.connectionStates n errorState },
          false, false⟩
      else if fieldIsStr fs (str "type") (str "complete") then
        ⟨{ s with connectionStates := upd s.connectionStates n completedState },
          false, true⟩
      else ⟨s, false, false⟩
    | _ => ⟨s, false, false⟩

/-- Run the receive loop over a list of timestamped incoming frames,
stopping early when a frame breaks the loop (`complete`). -/
def runReceive (n proto : Str) : List (Nat × Option JVal) → MState → MState
  | [], s => s
  | (t, m) :: rest, s =>
    let r := handleMessage n proto t m s
    if r.breakLoop then r.state else runReceive n proto rest r.state

/-! ## The reconnection loop (`manager.py` lines 145-443)

`_subscription_loop` is `while True:` around one connection attempt.  Each
iteration's interaction with the network is abstracted as an
`AttemptBehavior` drawn from a script, one behaviour per iteration (the
behaviour describes what the environment would do if the attempt proceeds;
the iteration that trips the max-attempts check consumes its behaviour
unused, since no connection is attempted). -/

/-- How an attempt ends after the subscribe message was sent: the stream
ends normally (or via a `complete` frame inside the message list), or an
exception is raised out of the receive loop. -/
inductive SessionEnd where
  | streamEnd : SessionEnd
  | exnTimeout : SessionEnd
  | exnClosed : SessionEnd
  | exnOther : SessionEnd

/-- What happens after the WebSocket connection has opened. -/
inductive OpenedOutcome where
  /-- `asyncio.wait_for(websocket.recv(), 30)` times out (`TimeoutError`). -/
  | initRecvTimeout : OpenedOutcome
  /-- the init recv raises `ConnectionClosed`. -/
  | initRecvClosed : OpenedOutcome
  /-- the init response is not valid JSON (`manager.py` lines 249-259). -/
  | initBadJson : OpenedOutcome
  /-- the init response is a `connection_error` message (lines 267-276). -/
  | initConnError : JVal → OpenedOutcome
  /-- the handshake proceeds (`connection_ack` if `ackReceived`, otherwise an
  unexpected init message that is tolerated), the subscribe message is sent,
  then the listed frames arrive and the attempt ends as `endK`. -/
  | proceed : (ackReceived : Bool) → (frames : List (Nat × Option JVal)) →
      (endK : SessionEnd) → OpenedOutcome

/-- Environment behaviour of one loop iteration. -/
inductive AttemptBehavior where
  /-- `TimeoutError` raised before the socket opens. -/
  | raiseTimeout : AttemptBehavior
  /-- `ConnectionClosed` raised before the socket opens. -/
  | raiseClosed : AttemptBehavior
  /-- `websockets.exceptions.InvalidURI` raised (lines 424-429). -/
  | raiseInvalidURI : AttemptBehavior
  /-- any other exception (lines 431-435). -/
  | raiseOther : AttemptBehavior
  /-- the connection opens with negotiated subprotocol `proto`. -/
  | opened : (proto : Str) → OpenedOutcome → AttemptBehavior

/-- Configuration the loop reads: `UNRAID_API_URL` and
`UNRAID_MAX_RECONNECT_ATTEMPTS`. -/
structure Config where
  apiUrl : Option Str
  maxReconnectAttempts : Nat

/-- The default configuration: a configured URL, `max = 10`. -/
def defaultConfig : Config :=
  { apiUrl := some (str "https://host"), maxReconnectAttempts := 10 }

/-- Python's binary `min` on rationals (used at `manager.py` line 438),
written as an `if` so that it evaluates by kernel reduction. -/
def qmin (a b : ℚ) : ℚ := if a ≤ b then a else b

/-- Loop-local variables and an observation log: the local `retry_delay`,
the sleeps performed (chronological), how many times `websockets.connect`
was invoked, and the largest value the attempt counter ever held. -/
structure LoopTrace where
  retryDelay : ℚ
  sleeps : List ℚ
  connectAttempts : Nat
  maxAttemptSeen : Nat

/-- Loop-local state at loop entry (`retry_delay = 5`, line 149). -/
def initialTrace : LoopTrace :=
  { retryDelay := 5, sleeps := [], connectAttempts := 0, maxAttemptSeen := 0 }

/-- One backoff multiplication: `min(retry_delay * 1.5, 300)` (line 438). -/
def stepDelay (d : ℚ) : ℚ := qmin (d * (3 / 2)) 300

/-- End-of-iteration backoff (lines 437-443): multiply the delay, record the
sleep, set state `"reconnecting"`, continue the loop. -/
def backoff (n : Str) (s : MState) (tr : LoopTrace) : MState × LoopTrace × Bool :=
  let d := stepDelay tr.retryDelay
  ({ s with connectionStates := upd s.connectionStates n reconnectingState },
    { tr with retryDelay := d, sleeps := tr.sleeps ++ [d] }, true)

/-- Record a failure: `last_error[n]` and `connection_states[n]`. -/
def setFailure (n : Str) (e : ErrVal) (st : Str) (s : MState) : MState :=
  { s with lastError := upd s.lastError n e
           connectionStates := upd s.connectionStates n st }

/-- One iteration of `while True:` in `_subscription_loop` (lines 152-443).
Returns the manager state, the trace, and whether the loop continues
(`false` models `break`). -/
def loopIter (cfg : Config) (n : Str) (b : AttemptBehavior) (s : MState)
    (tr : LoopTrace) : MState × LoopTrace × Bool :=
  -- lines 153-154: the counter increments before each connection attempt
  let attempt := (s.reconnectAttempts n).getD 0 + 1
  let s := { s with reconnectAttempts := upd s.reconnectAttempts n attempt }
  let tr := { tr with maxAttemptSeen := max tr.maxAttemptSeen attempt }
  -- lines 160-165: give up once the counter exceeds the maximum
  if attempt > cfg.maxReconnectAttempts then
    ({ s with connectionStates := upd s.connectionStates n maxRetriesState }, tr, false)
  else
    match cfg.apiUrl with
    | none =>
      -- line 170: `ValueError` raised, caught by the generic handler (line 431)
      backoff n (setFailure n .otherError errorState s) tr
    | some _ =>
      -- lines 193-199: `websockets.connect`
      let tr := { tr with connectAttempts := tr.connectAttempts + 1 }
      match b with
      | .raiseTimeout => backoff n (setFailure n .timeoutError timeoutState s) tr
      | .raiseClosed => backoff n (setFailure n .connClosed disconnectedState s) tr
      | .raiseInvalidURI => (setFailure n .invalidURIError invalidUriState s, tr, false)
      | .raiseOther => backoff n (setFailure n .otherError errorState s) tr
      | .opened proto outcome =>
        -- lines 201-209: connected; reset the counter and the delay
        let s := { s with
          connectionStates := upd s.connectionStates n connectedState
          reconnectAttempts := upd s.reconnectAttempts n 0 }
        let tr := { tr with retryDelay := 5 }
        match outcome with
        | .initRecvTimeout => backoff n (setFailure n .timeoutError timeoutState s) tr
        | .initRecvClosed => backoff n (setFailure n .connClosed disconnectedState s) tr
        | .initBadJson =>
          -- lines 249-259: record the error and `break`
          ({ s with lastError := upd s.lastError n .invalidJsonInit }, tr, false)
        | .initConnError payload =>
          -- lines 267-276: record the payload, state `"auth_failed"`, `break`
          ({ s with
              lastError := upd s.lastError n (.authError payload)
              connectionStates := upd s.connectionStates n authFailedState }, tr, false)
        | .proceed ackReceived frames endK =>
          -- lines 262-266: `connection_ack` → `"authenticated"`
          let s := if ackReceived then
              { s with connectionStates := upd s.connectionStates n authenticatedState }
            else s
          -- lines 287-306: send the subscribe message, state `"subscribed"`
          let s := { s with connectionStates := upd s.connectionStates n subscribedState }
          -- lines 311-410: the receive loop
          let s := runReceive n proto frames s
          match endK with
          | .streamEnd => backoff n s tr
          | .exnTimeout => backoff n (setFailure n .timeoutError timeoutState s) tr
          | .exnClosed => backoff n (setFailure n .connClosed disconnectedState s) tr
          | .exnOther => backoff n (setFailure n .otherError errorState s) tr

/-- Result of running the loop against a finite behaviour script: either the
loop executed a `break` (and would make no further connection attempts), or
the script is exhausted with the loop still running. -/
inductive LoopResult where
  | terminated : MState → LoopTrace → LoopResult
  | running : MState → LoopTrace → LoopResult

def LoopResult.isRunning : LoopResult → Bool
  | .terminated _ _ => false
  | .running _ _ => true

def LoopResult.finalState : LoopResult → MState
  | .terminated s _ => s
  | .running s _ => s

def LoopResult.finalTrace : LoopResult → LoopTrace
  | .terminated _ tr => tr
  | .running _ tr => tr

/-- Run `_subscription_loop` against a script of behaviours, one per
iteration; a `break` discards the rest of the script. -/
def runLoop (cfg : Config) (n : Str) : List AttemptBehavior → MState → LoopTrace →
    LoopResult
  | [], s, tr => .running s tr
  | b :: bs, s, tr =>
    match loopIter cfg n b s tr with
    | (s', tr', true) => runLoop cfg n bs s' tr'
    | (s', tr', false) => .terminated s' tr'

end UnraidMCP

/-! ## Helper lemmas -/

namespace UnraidMCP

theorem startsWith_append_self (p s : Str) : startsWith p (p ++ s) = true := by
  induction p with
  | nil => simp [startsWith]
  | cons c cs ih => simp [startsWith, ih]

theorem count_pos_of_count_eq_one {l : List Str} {n : Str} (h : l.count n = 1) :
    n ∈ l := by
  have : 0 < l.count n := by omega
  exact List.count_pos_iff.mp this

end UnraidMCP

/-! ## Claims -/

namespace UnraidMCP

/-- C2: starting a name that already has exactly one active task is a no-op:
the manager state is unchanged and the name still has exactly one active
task (`start_subscription`, `manager.py` lines 99-103). -/
theorem start_subscription_idempotent (s : MState) (n : Str)
    (h : s.active.count n = 1) :
    startSubscription n s = s ∧ (startSubscription n s).active.count n = 1 := by
  have hmem : n ∈ s.active := count_pos_of_count_eq_one h
  refine ⟨by simp [startSubscription, hmem], ?_⟩
  simp [startSubscription, hmem, h]

/-- Witness for C2 at a concrete state with one active task. -/
theorem start_subscription_idempotent_witness :
    startSubscription logFileName { emptyState with active := [logFileName] }
        = { emptyState with active := [logFileName] } ∧
      (startSubscription logFileName
        { emptyState with active := [logFileName] }).active.count logFileName = 1 :=
  start_subscription_idempotent { emptyState with active := [logFileName] }
    logFileName (by decide)

/-- C7: stopping a name with exactly one active task removes it from the
active set and sets its connection state to `"stopped"`, leaving the cache,
the retry counters and the last errors untouched; stopping a name with no
active task leaves the whole manager state unchanged
(`stop_subscription`, `manager.py` lines 127-143). -/
theorem stop_subscription_spec (s : MState) (n : Str) :
    (s.active.count n = 1 →
      (stopSubscription n s).active = s.active.erase n ∧
      n ∉ (stopSubscription n s).active ∧
      (stopSubscription n s).connectionStates n = some stoppedState ∧
      (stopSubscription n s).resourceData = s.resourceData ∧
      (stopSubscription n s).reconnectAttempts = s.reconnectAttempts ∧
      (stopSubscription n s).lastError = s.lastError) ∧
    (n ∉ s.active → stopSubscription n s = s) := by
  constructor
  · intro h
    have hmem : n ∈ s.active := count_pos_of_count_eq_one h
    have hcount : (s.active.erase n).count n = 0 := by
      rw [List.count_erase_self]
      omega
    have hnotmem : n ∉ s.active.erase n := by
      intro hc
      have := List.count_pos_iff.mpr hc
      omega
    simp [stopSubscription, hmem, hnotmem, upd]
  · intro h
    simp [stopSubscription, h]

/-- Witness for C7: one state where the task is active, one where it is not. -/
theorem stop_subscription_spec_witness :
    ((stopSubscription logFileName { emptyState with active := [logFileName] }).active
        = [logFileName].erase logFileName ∧
      logFileName ∉ (stopSubscription logFileName
        { emptyState with active := [logFileName] }).active ∧
      (stopSubscription logFileName
        { emptyState with active := [logFileName] }).connectionStates logFileName
        = some stoppedState ∧
      (stopSubscription logFileName
          { emptyState with active := [logFileName] }).resourceData
        = ({ emptyState with active := [logFileName] } : MState).resourceData ∧
      (stopSubscription logFileName
          { emptyState with active := [logFileName] }).reconnectAttempts
        = ({ emptyState with active := [logFileName] } : MState).reconnectAttempts ∧
      (stopSubscription logFileName
          { emptyState with active := [logFileName] }).lastError
        = ({ emptyState with active := [logFileName] } : MState).lastError) ∧
    stopSubscription logFileName emptyState = emptyState :=
  ⟨(stop_subscription_spec { emptyState with active := [logFileName] }
      logFileName).1 (by decide),
    (stop_subscription_spec emptyState logFileName).2 (by decide)⟩

end UnraidMCP

namespace UnraidMCP

theorem httpsScheme_def : httpsScheme = ['h','t','t','p','s',':','/','/'] := by decide

theorem httpScheme_def : httpScheme = ['h','t','t','p',':','/','/'] := by decide

/-- The scheme check order in `manager.py` lines 172-177 is sound: an
`http://` URL never passes the `https://` test. -/
theorem not_startsWith_https_of_http (r : Str) :
    startsWith httpsScheme (httpScheme ++ r) = false := by
  rw [httpsScheme_def, httpScheme_def]
  simp [startsWith]

theorem schemeToWs_https (r : Str) : schemeToWs (httpsScheme ++ r) = wssScheme ++ r := by
  have h8 : httpsScheme.length = 8 := by decide
  simp [schemeToWs, startsWith_append_self, ← h8, List.drop_left]

theorem schemeToWs_http (r : Str) : schemeToWs (httpScheme ++ r) = wsScheme ++ r := by
  have h7 : httpScheme.length = 7 := by decide
  simp [schemeToWs, not_startsWith_https_of_http, startsWith_append_self, ← h7,
    List.drop_left]

/-- C8: with the base URL `https://host`, the derived WebSocket URL is
`wss://host/graphql`; scheme substitution maps `https://` to `wss://` and
`http://` to `ws://` for every remainder; `/graphql` is not appended again
when the URL already ends with it; under the transport dialect the subscribe
message type is `subscribe` and the awaited data type is `next`, versus
`start` and `data` for the legacy dialect. -/
theorem derived_url_and_dialect :
    managerWsUrl (str "https://host") = str "wss://host/graphql" ∧
    (∀ r : Str, schemeToWs (httpsScheme ++ r) = wssScheme ++ r) ∧
    (∀ r : Str, schemeToWs (httpScheme ++ r) = wsScheme ++ r) ∧
    managerWsUrl (str "https://host/graphql") = str "wss://host/graphql" ∧
    startMsgType transportProto = str "subscribe" ∧
    expectedDataType transportProto = str "next" ∧
    startMsgType legacyProto = str "start" ∧
    expectedDataType legacyProto = str "data" :=
  ⟨by decide, schemeToWs_https, schemeToWs_http, by decide, by decide, by decide,
    by decide, by decide⟩

end UnraidMCP

namespace UnraidMCP

/-- C6 counterexample: a data message of the negotiated dialect's data type,
with matching id, whose payload has a `data` field *present* but bound to
JSON `null`, does not touch the cache: `manager.py` line 332 tests Python
truthiness of `payload.get("data")`, not presence.  The claim as stated
(presence suffices) is therefore false. -/
theorem data_presence_does_not_update_cache :
    (handleMessage logFileName transportProto 0
        (some (.obj [(str "type", .jstr (str "next")),
                     (str "id", .jstr logFileName),
                     (str "payload", .obj [(str "data", JVal.null)])]))
        emptyState).state.resourceData logFileName = none ∧
    getField [(str "data", JVal.null)] (str "data") = some JVal.null ∧
    getResourceData logFileName
      (handleMessage logFileName transportProto 0
        (some (.obj [(str "type", .jstr (str "next")),
                     (str "id", .jstr logFileName),
                     (str "payload", .obj [(str "data", JVal.null)])]))
        emptyState).state = none :=
  ⟨rfl, rfl, rfl⟩

/-- C6 (amended): for every incoming frame of the negotiated dialect's data
type whose id equals the subscription name and whose payload has a *truthy*
`data` field, the cache entry for the name is overwritten — for any prior
cache contents — with a new `SubscriptionData` holding exactly that `data`
value and the current timestamp, the receive loop continues, and
`get_resource_data` then returns the new value. -/
theorem data_message_updates_cache (proto n : Str) (now : Nat)
    (fs pfs : List (Str × JVal)) (d : JVal) (s : MState)
    (hty : getField fs (str "type") = some (.jstr (expectedDataType proto)))
    (hid : getField fs (str "id") = some (.jstr n))
    (hpl : getField fs (str "payload") = some (.obj pfs))
    (hdata : getField pfs (str "data") = some d)
    (htruthy : truthy d = true) :
    (handleMessage n proto now (some (.obj fs)) s).state.resourceData n
      = some ⟨d, now, n⟩ ∧
    getResourceData n (handleMessage n proto now (some (.obj fs)) s).state = some d ∧
    (handleMessage n proto now (some (.obj fs)) s).breakLoop = false := by
  have h1 : fieldIsStr fs (str "type") (expectedDataType proto) = true := by
    simp [fieldIsStr, hty]
  have h2 : fieldIsStr fs (str "id") n = true := by
    simp [fieldIsStr, hid]
  have h3 : getTruthy pfs (str "data") = true := by
    simp [getTruthy, hdata, htruthy]
  simp [handleMessage, h1, h2, hpl, h3, hdata, upd, getResourceData]

/-- Witness for C6 at a concrete frame carrying `payload.data = {"x": 1}`. -/
theorem data_message_updates_cache_witness :
    (handleMessage logFileName transportProto 7
        (some (.obj [(str "type", .jstr (str "next")),
                     (str "id", .jstr logFileName),
                     (str "payload",
                      .obj [(str "data", .obj [(str "x", .num 1)])])]))
        emptyState).state.resourceData logFileName
      = some ⟨.obj [(str "x", .num 1)], 7, logFileName⟩ ∧
    getResourceData logFileName
      (handleMessage logFileName transportProto 7
        (some (.obj [(str "type", .jstr (str "next")),
                     (str "id", .jstr logFileName),
                     (str "payload",
                      .obj [(str "data", .obj [(str "x", .num 1)])])]))
        emptyState).state = some (.obj [(str "x", .num 1)]) ∧
    (handleMessage logFileName transportProto 7
        (some (.obj [(str "type", .jstr (str "next")),
                     (str "id", .jstr logFileName),
                     (str "payload",
                      .obj [(str "data", .obj [(str "x", .num 1)])])]))
        emptyState).breakLoop = false :=
  data_message_updates_cache transportProto logFileName 7
    [(str "type", .jstr (str "next")), (str "id", .jstr logFileName),
     (str "payload", .obj [(str "data", .obj [(str "x", .num 1)])])]
    [(str "data", .obj [(str "x", .num 1)])]
    (.obj [(str "x", .num 1)]) emptyState rfl rfl rfl rfl rfl

end UnraidMCP

namespace UnraidMCP

/-- C1 counterexample: with the default configuration, a malformed (non-JSON)
init response on the first attempt terminates the subscription loop outright:
the `break` at `manager.py` line 259 leaves the `while True:` loop, so the
scripted second attempt never happens (one single `websockets.connect` call)
and no backoff sleep is performed — contradicting the claim that the outer
reconnection loop retries after a malformed init response. -/
theorem bad_init_json_retries_counterexample :
    (runLoop defaultConfig logFileName
        [.opened transportProto .initBadJson, .raiseTimeout]
        (startSubscription logFileName emptyState) initialTrace).isRunning = false ∧
    (runLoop defaultConfig logFileName
        [.opened transportProto .initBadJson, .raiseTimeout]
        (startSubscription logFileName emptyState)
        initialTrace).finalTrace.connectAttempts = 1 ∧
    (runLoop defaultConfig logFileName
        [.opened transportProto .initBadJson, .raiseTimeout]
        (startSubscription logFileName emptyState)
        initialTrace).finalTrace.sleeps = [] := by
  refine ⟨by decide, by decide, rfl⟩

/-- C1 (amended): a malformed init response records
`"Invalid JSON in init response"` as the last error and terminates the
subscription's retry loop permanently: whatever behaviours follow in the
script, no further connection attempt and no backoff sleep occurs, and the
connection state is left at `"connected"`. -/
theorem bad_init_json_terminates_loop (cfg : Config) (n proto u : Str)
    (rest : List AttemptBehavior) (s : MState) (tr : LoopTrace)
    (hurl : cfg.apiUrl = some u)
    (hmax : (s.reconnectAttempts n).getD 0 + 1 ≤ cfg.maxReconnectAttempts) :
    (runLoop cfg n (.opened proto .initBadJson :: rest) s tr).isRunning = false ∧
    (runLoop cfg n (.opened proto .initBadJson :: rest) s tr).finalState.lastError n
      = some .invalidJsonInit ∧
    (runLoop cfg n (.opened proto .initBadJson :: rest) s
        tr).finalState.connectionStates n = some connectedState ∧
    (runLoop cfg n (.opened proto .initBadJson :: rest) s
        tr).finalTrace.connectAttempts = tr.connectAttempts + 1 ∧
    (runLoop cfg n (.opened proto .initBadJson :: rest) s tr).finalTrace.sleeps
      = tr.sleeps := by
  have hcond : ¬ ((s.reconnectAttempts n).getD 0 + 1 > cfg.maxReconnectAttempts) := by
    omega
  simp [runLoop, loopIter, hurl, hcond, upd, LoopResult.isRunning,
    LoopResult.finalState, LoopResult.finalTrace]

/-- Witness for C1's amended theorem at the default configuration. -/
theorem bad_init_json_terminates_loop_witness :
    (runLoop defaultConfig logFileName
        [.opened legacyProto .initBadJson, .raiseOther] emptyState
        initialTrace).isRunning = false ∧
    (runLoop defaultConfig logFileName
        [.opened legacyProto .initBadJson, .raiseOther] emptyState
        initialTrace).finalState.lastError logFileName = some .invalidJsonInit ∧
    (runLoop defaultConfig logFileName
        [.opened legacyProto .initBadJson, .raiseOther] emptyState
        initialTrace).finalState.connectionStates logFileName
      = some connectedState ∧
    (runLoop defaultConfig logFileName
        [.opened legacyProto .initBadJson, .raiseOther] emptyState
        initialTrace).finalTrace.connectAttempts = initialTrace.connectAttempts + 1 ∧
    (runLoop defaultConfig logFileName
        [.opened legacyProto .initBadJson, .raiseOther] emptyState
        initialTrace).finalTrace.sleeps = initialTrace.sleeps :=
  bad_init_json_terminates_loop defaultConfig logFileName legacyProto
    (str "https://host") [.raiseOther] emptyState initialTrace rfl (by decide)

/-- C4: a `connection_error` reply to `connection_init` sets the connection
state to `"auth_failed"`, records the error payload as the last error, and
terminates the reconnection loop: whatever behaviours follow in the script,
no further connection attempt is made and no backoff sleep is performed
(`manager.py` lines 267-276). -/
theorem connection_error_aborts_loop (cfg : Config) (n proto u : Str)
    (payload : JVal) (rest : List AttemptBehavior) (s : MState) (tr : LoopTrace)
    (hurl : cfg.apiUrl = some u)
    (hmax : (s.reconnectAttempts n).getD 0 + 1 ≤ cfg.maxReconnectAttempts) :
    (runLoop cfg n (.opened proto (.initConnError payload) :: rest) s
        tr).isRunning = false ∧
    (runLoop cfg n (.opened proto (.initConnError payload) :: rest) s
        tr).finalState.connectionStates n = some authFailedState ∧
    (runLoop cfg n (.opened proto (.initConnError payload) :: rest) s
        tr).finalState.lastError n = some (.authError payload) ∧
    (runLoop cfg n (.opened proto (.initConnError payload) :: rest) s
        tr).finalTrace.connectAttempts = tr.connectAttempts + 1 ∧
    (runLoop cfg n (.opened proto (.initConnError payload) :: rest) s
        tr).finalTrace.sleeps = tr.sleeps := by
  have hcond : ¬ ((s.reconnectAttempts n).getD 0 + 1 > cfg.maxReconnectAttempts) := by
    omega
  simp [runLoop, loopIter, hurl, hcond, upd, LoopResult.isRunning,
    LoopResult.finalState, LoopResult.finalTrace]

/-- Witness for C4 with a concrete error payload. -/
theorem connection_error_aborts_loop_witness :
    (runLoop defaultConfig logFileName
        [.opened transportProto (.initConnError (.jstr (str "denied"))), .raiseTimeout]
        emptyState initialTrace).isRunning = false ∧
    (runLoop defaultConfig logFileName
        [.opened transportProto (.initConnError (.jstr (str "denied"))), .raiseTimeout]
        emptyState initialTrace).finalState.connectionStates logFileName
      = some authFailedState ∧
    (runLoop defaultConfig logFileName
        [.opened transportProto (.initConnError (.jstr (str "denied"))), .raiseTimeout]
        emptyState initialTrace).finalState.lastError logFileName
      = some (.authError (.jstr (str "denied"))) ∧
    (runLoop defaultConfig logFileName
        [.opened transportProto (.initConnError (.jstr (str "denied"))), .raiseTimeout]
        emptyState initialTrace).finalTrace.connectAttempts
      = initialTrace.connectAttempts + 1 ∧
    (runLoop defaultConfig logFileName
        [.opened transportProto (.initConnError (.jstr (str "denied"))), .raiseTimeout]
        emptyState initialTrace).finalTrace.sleeps = initialTrace.sleeps :=
  connection_error_aborts_loop defaultConfig logFileName transportProto
    (str "https://host") (.jstr (str "denied")) [.raiseTimeout] emptyState
    initialTrace rfl (by decide)

end UnraidMCP

namespace UnraidMCP

/-- Delay after applying `k` backoff multiplications to `d`. -/
def iterDelay : Nat → ℚ → ℚ
  | 0, d => d
  | k + 1, d => iterDelay k (stepDelay d)

/-- Chronological sleeps performed by `k` consecutive backoffs from delay `d`. -/
def chronSleeps : Nat → ℚ → List ℚ
  | 0, _ => []
  | k + 1, d => stepDelay d :: chronSleeps k (stepDelay d)

/-- The delay value the spec predicts after `k` consecutive failures. -/
def expectedDelay (k : Nat) : ℚ := qmin (5 * (3 / 2) ^ k) 300

theorem runLoop_append (cfg : Config) (n : Str) (l1 l2 : List AttemptBehavior)
    (s : MState) (tr : LoopTrace) :
    runLoop cfg n (l1 ++ l2) s tr =
      match runLoop cfg n l1 s tr with
      | .running s' tr' => runLoop cfg n l2 s' tr'
      | .terminated s' tr' => .terminated s' tr' := by
  induction l1 generalizing s tr with
  | nil => simp [runLoop]
  | cons b bs ih =>
    simp only [List.cons_append, runLoop]
    rcases hb : loopIter cfg n b s tr with ⟨s', tr', c⟩
    cases c <;> simp [ih]

/-- Running the loop against `k` consecutive transport failures (timeouts)
while the attempt budget lasts: the loop keeps running, the counter grows by
`k`, the delay is multiplied `k` times and each multiplied delay is slept,
one connection attempt per failure; the cache and the active set are
untouched. -/
theorem run_transport_failures (cfg : Config) (n u : Str)
    (hurl : cfg.apiUrl = some u) :
    ∀ (k : Nat) (s : MState) (tr : LoopTrace),
    (s.reconnectAttempts n).getD 0 + k ≤ cfg.maxReconnectAttempts →
    ∃ s' tr',
      runLoop cfg n (List.replicate k .raiseTimeout) s tr = .running s' tr' ∧
      (s'.reconnectAttempts n).getD 0 = (s.reconnectAttempts n).getD 0 + k ∧
      tr'.retryDelay = iterDelay k tr.retryDelay ∧
      tr'.sleeps = tr.sleeps ++ chronSleeps k tr.retryDelay ∧
      tr'.connectAttempts = tr.connectAttempts + k ∧
      s'.resourceData = s.resourceData ∧
      s'.active = s.active ∧
      (k = 0 → s' = s ∧ tr' = tr) ∧
      (0 < k → s'.connectionStates n = some reconnectingState) := by
  intro k
  induction k with
  | zero =>
    intro s tr _
    exact ⟨s, tr, rfl, by omega, rfl, by simp [chronSleeps], by omega,
      rfl, rfl, fun _ => ⟨rfl, rfl⟩, by omega⟩
  | succ k ih =>
    intro s tr hbudget
    have hcond : ¬ ((s.reconnectAttempts n).getD 0 + 1 > cfg.maxReconnectAttempts) := by
      omega
    set a := (s.reconnectAttempts n).getD 0 with ha
    have hstep :
        runLoop cfg n (List.replicate (k + 1) .raiseTimeout) s tr =
        runLoop cfg n (List.replicate k .raiseTimeout)
          { s with
            reconnectAttempts := upd s.reconnectAttempts n (a + 1)
            connectionStates :=
              upd (upd s.connectionStates n timeoutState) n reconnectingState
            lastError := upd s.lastError n .timeoutError }
          { tr with
            retryDelay := stepDelay tr.retryDelay
            sleeps := tr.sleeps ++ [stepDelay tr.retryDelay]
            connectAttempts := tr.connectAttempts + 1
            maxAttemptSeen := max tr.maxAttemptSeen (a + 1) } := by
      simp [List.replicate_succ, runLoop, loopIter, hurl, hcond, backoff,
        setFailure, ← ha]
    rw [hstep]
    have hget : (upd s.reconnectAttempts n (a + 1) n).getD 0 = a + 1 := by
      simp [upd]
    obtain ⟨s', tr', hrun, hcnt, hdel, hsl, hatt, hdata, hact, hzero, hpos⟩ :=
      ih { s with
            reconnectAttempts := upd s.reconnectAttempts n (a + 1)
            connectionStates :=
              upd (upd s.connectionStates n timeoutState) n reconnectingState
            lastError := upd s.lastError n .timeoutError }
         { tr with
            retryDelay := stepDelay tr.retryDelay
            sleeps := tr.sleeps ++ [stepDelay tr.retryDelay]
            connectAttempts := tr.connectAttempts + 1
            maxAttemptSeen := max tr.maxAttemptSeen (a + 1) }
         (by simpa [hget] using (by omega : a + 1 + k ≤ cfg.maxReconnectAttempts))
    refine ⟨s', tr', hrun, ?_, ?_, ?_, ?_, ?_, ?_, ?_, ?_⟩
    · simp only [hget] at hcnt
      omega
    · simpa [iterDelay] using hdel
    · simp only at hsl
      rw [hsl]
      simp [chronSleeps, List.append_assoc]
    · simp only at hatt
      omega
    · simpa using hdata
    · simpa using hact
    · omega
    · intro _
      rcases Nat.eq_zero_or_pos k with hk | hk
      · subst hk
        obtain ⟨hs, -⟩ := hzero rfl
        rw [hs]
        simp [upd]
      · exact hpos hk

end UnraidMCP

namespace UnraidMCP

theorem stepDelay_expectedDelay (j : Nat) :
    stepDelay (expectedDelay j) = expectedDelay (j + 1) := by
  have hr1 : (1 : ℚ) ≤ 3 / 2 := by norm_num
  have hpow : (0 : ℚ) < 5 * (3 / 2) ^ j := by positivity
  rcases le_or_lt (5 * (3 / 2 : ℚ) ^ j) 300 with h | h
  · rw [expectedDelay, qmin, if_pos h, stepDelay, expectedDelay, qmin, qmin,
      pow_succ, ← mul_assoc]
  · have h' : 300 < 5 * (3 / 2 : ℚ) ^ (j + 1) := by
      calc (300 : ℚ) < 5 * (3 / 2) ^ j := h
        _ ≤ 5 * (3 / 2) ^ j * (3 / 2) := le_mul_of_one_le_right (le_of_lt hpow) hr1
        _ = 5 * (3 / 2) ^ (j + 1) := by rw [pow_succ, mul_assoc]
    rw [expectedDelay, qmin, if_neg (not_le.mpr h), stepDelay, expectedDelay]
    rw [qmin, if_neg (by norm_num), qmin, if_neg (not_le.mpr h')]

theorem iterDelay_expectedDelay (k : Nat) :
    ∀ j : Nat, iterDelay k (expectedDelay j) = expectedDelay (j + k) := by
  induction k with
  | zero => intro j; simp [iterDelay]
  | succ k ih =>
    intro j
    rw [iterDelay, stepDelay_expectedDelay, ih]
    congr 1
    omega

theorem expectedDelay_zero : expectedDelay 0 = 5 := by
  rw [expectedDelay, qmin, if_pos (by norm_num)]
  norm_num

theorem chronSleeps_expectedDelay (k : Nat) :
    ∀ j : Nat, chronSleeps k (expectedDelay j)
      = (List.range k).map (fun i => expectedDelay (j + 1 + i)) := by
  induction k with
  | zero => intro j; simp [chronSleeps]
  | succ k ih =>
    intro j
    rw [chronSleeps, stepDelay_expectedDelay, ih, List.range_succ_eq_map]
    simp only [List.map_cons, List.map_map]
    refine List.cons_eq_cons.mpr ⟨by norm_num, ?_⟩
    apply List.map_congr_left
    intro i _
    simp [Function.comp]
    congr 1
    omega

end UnraidMCP

namespace UnraidMCP

/-- C3 counterexample: after the very first transport failure, the loop
multiplies the delay *before* sleeping (`manager.py` line 438 precedes line
443), so the first sleep is 7.5 s — not the 5-second floor the claim
asserts. -/
theorem first_sleep_is_not_floor :
    (runLoop defaultConfig logFileName [.raiseTimeout]
        (startSubscription logFileName emptyState) initialTrace).finalTrace.sleeps
      = [(15 / 2 : ℚ)] ∧ (15 / 2 : ℚ) ≠ 5 := by
  constructor
  · simp [runLoop, loopIter, backoff, stepDelay, qmin, initialTrace,
      startSubscription, emptyState, defaultConfig, upd, setFailure, logFileName,
      LoopResult.finalTrace]
    norm_num
  · norm_num

/-- C3 (amended): over `k` consecutive retryable failures within the attempt
budget, the delay value after `k` failures is `min(5 * 1.5^k, 300)` as the
claim states, but the multiplication happens *before* each sleep: the sleep
performed after the `i`-th failure is `min(5 * 1.5^i, 300)`, so the sleep
after the first failure is 7.5 s rather than the 5-second floor. -/
theorem backoff_delay_schedule (cfg : Config) (n u : Str) (k : Nat)
    (s : MState) (tr : LoopTrace)
    (hurl : cfg.apiUrl = some u)
    (hbudget : (s.reconnectAttempts n).getD 0 + k ≤ cfg.maxReconnectAttempts)
    (hdelay : tr.retryDelay = 5)
    (hsleeps : tr.sleeps = []) :
    (runLoop cfg n (List.replicate k .raiseTimeout) s tr).isRunning = true ∧
    (runLoop cfg n (List.replicate k .raiseTimeout) s tr).finalTrace.retryDelay
      = qmin (5 * (3 / 2) ^ k) 300 ∧
    (runLoop cfg n (List.replicate k .raiseTimeout) s tr).finalTrace.sleeps
      = (List.range k).map (fun i => qmin (5 * (3 / 2) ^ (i + 1)) 300) := by
  obtain ⟨s', tr', hrun, hcnt, hdel, hsl, hatt, hdata, hact, hzero, hpos⟩ :=
    run_transport_failures cfg n u hurl k s tr hbudget
  rw [hrun]
  have hiter : iterDelay k 5 = expectedDelay (0 + k) := by
    rw [← expectedDelay_zero, iterDelay_expectedDelay]
  have hchron : chronSleeps k 5
      = (List.range k).map (fun i => expectedDelay (0 + 1 + i)) := by
    rw [← expectedDelay_zero, chronSleeps_expectedDelay]
  refine ⟨rfl, ?_, ?_⟩
  · rw [LoopResult.finalTrace, hdel, hdelay, hiter, expectedDelay]
    norm_num
  · rw [LoopResult.finalTrace, hsl, hsleeps, hdelay, hchron, List.nil_append]
    apply List.map_congr_left
    intro i _
    have h01 : 0 + 1 + i = i + 1 := by omega
    rw [expectedDelay, h01]

/-- Witness for C3's amended theorem: two failures from a fresh start. -/
theorem backoff_delay_schedule_witness :
    (runLoop defaultConfig logFileName (List.replicate 2 .raiseTimeout)
        (startSubscription logFileName emptyState) initialTrace).isRunning = true ∧
    (runLoop defaultConfig logFileName (List.replicate 2 .raiseTimeout)
        (startSubscription logFileName emptyState)
        initialTrace).finalTrace.retryDelay = qmin (5 * (3 / 2) ^ 2) 300 ∧
    (runLoop defaultConfig logFileName (List.replicate 2 .raiseTimeout)
        (startSubscription logFileName emptyState) initialTrace).finalTrace.sleeps
      = (List.range 2).map (fun i => qmin (5 * (3 / 2) ^ (i + 1)) 300) :=
  backoff_delay_schedule defaultConfig logFileName (str "https://host") 2
    (startSubscription logFileName emptyState) initialTrace rfl (by decide)
    rfl rfl

end UnraidMCP

namespace UnraidMCP

/-- C5: from a freshly started subscription, after `max` consecutive
transport failures (`max` = the configured maximum, default 10), the next
iteration increments the counter past the maximum, sets the connection state
to `"max_retries_exceeded"` and terminates the loop permanently: whatever
behaviours follow, exactly `max` connection attempts were ever issued, and
`get_subscription_status` reports the `"max_retries_exceeded"` state for the
name (`manager.py` lines 152-165 and 464-498). -/
theorem max_retries_exceeded_stops (cfg : Config) (u : Str)
    (b : AttemptBehavior) (rest : List AttemptBehavior) (s : MState)
    (tr : LoopTrace)
    (hurl : cfg.apiUrl = some u)
    (h0 : (s.reconnectAttempts logFileName).getD 0 = 0) :
    (runLoop cfg logFileName
        (List.replicate cfg.maxReconnectAttempts .raiseTimeout ++ b :: rest) s
        tr).isRunning = false ∧
    (runLoop cfg logFileName
        (List.replicate cfg.maxReconnectAttempts .raiseTimeout ++ b :: rest) s
        tr).finalState.connectionStates logFileName = some maxRetriesState ∧
    (runLoop cfg logFileName
        (List.replicate cfg.maxReconnectAttempts .raiseTimeout ++ b :: rest) s
        tr).finalTrace.connectAttempts
      = tr.connectAttempts + cfg.maxReconnectAttempts ∧
    ∃ e : StatusEntry,
      (getSubscriptionStatus (runLoop cfg logFileName
        (List.replicate cfg.maxReconnectAttempts .raiseTimeout ++ b :: rest) s
        tr).finalState).lookup logFileName = some e ∧
      e.runtime.connectionState = maxRetriesState := by
  obtain ⟨s', tr', hrun, hcnt, hdel, hsl, hatt, hdata, hact, hzero, hpos⟩ :=
    run_transport_failures cfg logFileName u hurl cfg.maxReconnectAttempts s tr
      (by omega)
  rw [runLoop_append, hrun]
  have hc : (s'.reconnectAttempts logFileName).getD 0 + 1
      > cfg.maxReconnectAttempts := by omega
  simp [runLoop, loopIter, hc, upd, LoopResult.isRunning, LoopResult.finalState,
    LoopResult.finalTrace, getSubscriptionStatus, subscriptionConfigs,
    List.lookup, hatt]

/-- Witness for C5 at the default configuration (`max = 10`). -/
theorem max_retries_exceeded_stops_witness :
    (runLoop defaultConfig logFileName
        (List.replicate defaultConfig.maxReconnectAttempts .raiseTimeout
          ++ [.raiseTimeout]) (startSubscription logFileName emptyState)
        initialTrace).isRunning = false ∧
    (runLoop defaultConfig logFileName
        (List.replicate defaultConfig.maxReconnectAttempts .raiseTimeout
          ++ [.raiseTimeout]) (startSubscription logFileName emptyState)
        initialTrace).finalState.connectionStates logFileName
      = some maxRetriesState ∧
    (runLoop defaultConfig logFileName
        (List.replicate defaultConfig.maxReconnectAttempts .raiseTimeout
          ++ [.raiseTimeout]) (startSubscription logFileName emptyState)
        initialTrace).finalTrace.connectAttempts
      = initialTrace.connectAttempts + defaultConfig.maxReconnectAttempts ∧
    ∃ e : StatusEntry,
      (getSubscriptionStatus (runLoop defaultConfig logFileName
        (List.replicate defaultConfig.maxReconnectAttempts .raiseTimeout
          ++ [.raiseTimeout]) (startSubscription logFileName emptyState)
        initialTrace).finalState).lookup logFileName = some e ∧
      e.runtime.connectionState = maxRetriesState :=
  max_retries_exceeded_stops defaultConfig (str "https://host") .raiseTimeout []
    (startSubscription logFileName emptyState) initialTrace rfl (by decide)

end UnraidMCP

namespace UnraidMCP

/-- The receive-loop dispatch never touches the reconnect counters. -/
theorem handleMessage_preserves_attempts (n proto : Str) (t : Nat)
    (m : Option JVal) (s : MState) :
    (handleMessage n proto t m s).state.reconnectAttempts = s.reconnectAttempts := by
  rcases m with _ | v
  · rfl
  rcases v with _ | b | q | t' | xs | fs <;> try rfl
  simp only [handleMessage]
  repeat' split <;> try rfl

/-- Running the receive loop never touches the reconnect counters. -/
theorem runReceive_preserves_attempts (n proto : Str)
    (frames : List (Nat × Option JVal)) (s : MState) :
    (runReceive n proto frames s).reconnectAttempts = s.reconnectAttempts := by
  induction frames generalizing s with
  | nil => rfl
  | cons f rest ih =>
    rcases f with ⟨t, m⟩
    rw [runReceive]
    split
    · rw [handleMessage_preserves_attempts]
    · rw [ih, handleMessage_preserves_attempts]

/-- Behaviours in which the attempt opens the WebSocket and then neither a
malformed init response nor a `connection_error` occurs (both of which
`break`). -/
def opensRetryably : AttemptBehavior → Bool
  | .opened _ .initBadJson => false
  | .opened _ (.initConnError _) => false
  | .opened _ _ => true
  | _ => false

/-- One iteration under an opens-retryably behaviour, entered with counter 0
and a positive attempt budget: the connection is attempted, the counter is
back to 0 at the end (it was reset to 0 the moment the socket opened, at
`manager.py` line 208, before authentication), the largest counter value
seen is 1, and the loop continues. -/
theorem loopIter_opensRetryably (cfg : Config) (n u : Str)
    (b : AttemptBehavior) (s : MState) (tr : LoopTrace)
    (hurl : cfg.apiUrl = some u)
    (hmax : 1 ≤ cfg.maxReconnectAttempts)
    (hb : opensRetryably b = true)
    (h0 : (s.reconnectAttempts n).getD 0 = 0) :
    (loopIter cfg n b s tr).2.2 = true ∧
    ((loopIter cfg n b s tr).1.reconnectAttempts n).getD 0 = 0 ∧
    (loopIter cfg n b s tr).2.1.connectAttempts = tr.connectAttempts + 1 ∧
    (loopIter cfg n b s tr).2.1.maxAttemptSeen = max tr.maxAttemptSeen 1 := by
  have hcond : ¬ ((s.reconnectAttempts n).getD 0 + 1 > cfg.maxReconnectAttempts) := by
    omega
  have hne : cfg.maxReconnectAttempts ≠ 0 := by omega
  cases b with
  | raiseTimeout => simp [opensRetryably] at hb
  | raiseClosed => simp [opensRetryably] at hb
  | raiseInvalidURI => simp [opensRetryably] at hb
  | raiseOther => simp [opensRetryably] at hb
  | opened proto outcome =>
    cases outcome with
    | initRecvTimeout =>
      refine ⟨?_, ?_, ?_, ?_⟩ <;>
        simp [loopIter, hurl, hcond, hne, h0, backoff, setFailure, upd]
    | initRecvClosed =>
      refine ⟨?_, ?_, ?_, ?_⟩ <;>
        simp [loopIter, hurl, hcond, hne, h0, backoff, setFailure, upd]
    | initBadJson => simp [opensRetryably] at hb
    | initConnError p => simp [opensRetryably] at hb
    | proceed ack frames endK =>
      cases endK <;> cases ack <;> (refine ⟨?_, ?_, ?_, ?_⟩ <;>
        simp [loopIter, hurl, hcond, hne, h0, backoff, setFailure, upd,
          runReceive_preserves_attempts])

/-- C9: the reconnect counter is reset to 0 as soon as the WebSocket opens
(before authentication), so in every run in which each attempt opens the
socket and then ends retryably — e.g. timing out while waiting for
`connection_ack` — the loop never terminates, every scripted attempt is
issued, the stored counter is 0 after each iteration and the counter never
exceeds 1; `MaxRetriesExceeded` is never reached (the retry loop is
unbounded in this failure mode). -/
theorem opened_attempts_defeat_max_retries (cfg : Config) (n u : Str)
    (hurl : cfg.apiUrl = some u)
    (hmax : 1 ≤ cfg.maxReconnectAttempts) :
    ∀ (bs : List AttemptBehavior) (s : MState) (tr : LoopTrace),
    (∀ b ∈ bs, opensRetryably b = true) →
    (s.reconnectAttempts n).getD 0 = 0 →
    (runLoop cfg n bs s tr).isRunning = true ∧
    ((runLoop cfg n bs s tr).finalState.reconnectAttempts n).getD 0 = 0 ∧
    (runLoop cfg n bs s tr).finalTrace.connectAttempts
      = tr.connectAttempts + bs.length ∧
    (runLoop cfg n bs s tr).finalTrace.maxAttemptSeen ≤ max tr.maxAttemptSeen 1 := by
  intro bs
  induction bs with
  | nil =>
    intro s tr _ h0
    exact ⟨rfl, h0, rfl, by simp [runLoop, LoopResult.finalTrace]⟩
  | cons b rest ih =>
    intro s tr hall h0
    obtain ⟨hstep, h1, hc1, hm1⟩ :=
      loopIter_opensRetryably cfg n u b s tr hurl hmax
        (hall b (by simp)) h0
    rcases hres : loopIter cfg n b s tr with ⟨s1, tr1, c⟩
    simp only [hres] at hstep h1 hc1 hm1
    subst hstep
    have hloop : runLoop cfg n (b :: rest) s tr = runLoop cfg n rest s1 tr1 := by
      rw [runLoop, hres]
    obtain ⟨hr, hcnt, hatt, hseen⟩ :=
      ih s1 tr1 (fun x hx => hall x (by simp [hx])) h1
    refine ⟨hloop ▸ hr, hloop ▸ hcnt, ?_, ?_⟩
    · rw [hloop, hatt, hc1, List.length_cons]
      omega
    · rw [hloop]
      calc (runLoop cfg n rest s1 tr1).finalTrace.maxAttemptSeen
          ≤ max tr1.maxAttemptSeen 1 := hseen
        _ = max (max tr.maxAttemptSeen 1) 1 := by rw [hm1]
        _ = max tr.maxAttemptSeen 1 := by omega

/-- Witness for C9: three consecutive opened-then-init-timeout attempts under
the default configuration. -/
theorem opened_attempts_defeat_max_retries_witness :
    (runLoop defaultConfig logFileName
        (List.replicate 3 (.opened transportProto .initRecvTimeout))
        (startSubscription logFileName emptyState) initialTrace).isRunning = true ∧
    ((runLoop defaultConfig logFileName
        (List.replicate 3 (.opened transportProto .initRecvTimeout))
        (startSubscription logFileName emptyState)
        initialTrace).finalState.reconnectAttempts logFileName).getD 0 = 0 ∧
    (runLoop defaultConfig logFileName
        (List.replicate 3 (.opened transportProto .initRecvTimeout))
        (startSubscription logFileName emptyState)
        initialTrace).finalTrace.connectAttempts
      = initialTrace.connectAttempts
        + (List.replicate 3 (AttemptBehavior.opened transportProto
            .initRecvTimeout)).length ∧
    (runLoop defaultConfig logFileName
        (List.replicate 3 (.opened transportProto .initRecvTimeout))
        (startSubscription logFileName emptyState)
        initialTrace).finalTrace.maxAttemptSeen
      ≤ max initialTrace.maxAttemptSeen 1 :=
  opened_attempts_defeat_max_retries defaultConfig logFileName
    (str "https://host") rfl (by decide)
    (List.replicate 3 (.opened transportProto .initRecvTimeout))
    (startSubscription logFileName emptyState) initialTrace
    (by decide) (by decide)

end UnraidMCP

namespace UnraidMCP

/-- `str.replace` leaves a string without occurrences of the pattern alone,
for any fuel. -/
theorem replaceAllFuel_of_noOccur (old new : Str) :
    ∀ (s : Str) (f : Nat), occursIn old s = false → replaceAllFuel old new f s = s := by
  intro s
  induction s with
  | nil => intro f _; cases f <;> rfl
  | cons c cs ih =>
    intro f hocc
    rw [occursIn, Bool.or_eq_false_iff] at hocc
    cases f with
    | zero => rfl
    | succ g =>
      rw [replaceAllFuel]
      simp [hocc.1, ih g hocc.2]

/-- The fuel of `replaceAllFuel` is irrelevant once it covers the string's
length (the scan consumes at least one character per step). -/
theorem replaceAllFuel_fuel_congr (old new : Str) (hold : old ≠ []) :
    ∀ (L : Nat) (s : Str), s.length ≤ L → ∀ f1 f2, s.length ≤ f1 → s.length ≤ f2 →
      replaceAllFuel old new f1 s = replaceAllFuel old new f2 s := by
  have holen : 0 < old.length := List.length_pos.mpr hold
  intro L
  induction L with
  | zero =>
    intro s hs f1 f2 _ _
    have hnil : s = [] := List.length_eq_zero.mp (by omega)
    subst hnil
    cases f1 <;> cases f2 <;> rfl
  | succ L ih =>
    intro s hs f1 f2 h1 h2
    cases s with
    | nil => cases f1 <;> cases f2 <;> rfl
    | cons c cs =>
      simp only [List.length_cons] at hs h1 h2
      cases f1 with
      | zero => omega
      | succ g1 =>
        cases f2 with
        | zero => omega
        | succ g2 =>
          rw [replaceAllFuel, replaceAllFuel]
          by_cases hc : (startsWith old (c :: cs) && !old.isEmpty) = true
          · rw [if_pos hc, if_pos hc]
            congr 1
            apply ih
            · rw [List.length_drop]
              simp only [List.length_cons]
              omega
            · rw [List.length_drop]
              simp only [List.length_cons]
              omega
            · rw [List.length_drop]
              simp only [List.length_cons]
              omega
          · rw [if_neg hc, if_neg hc]
            congr 1
            apply ih cs (by omega) g1 g2 (by omega) (by omega)

/-- Any sufficient fuel computes `pyReplace`. -/
theorem replaceAllFuel_eq_pyReplace (old new : Str) (hold : old ≠ []) (s : Str)
    (f : Nat) (hf : s.length ≤ f) :
    replaceAllFuel old new f s = pyReplace s old new :=
  replaceAllFuel_fuel_congr old new hold s.length s le_rfl f s.length hf le_rfl

/-- `str.replace` consumes a pattern occurrence sitting at the head. -/
theorem pyReplace_head_self (old new t : Str) (hold : old ≠ []) :
    pyReplace (old ++ t) old new = new ++ pyReplace t old new := by
  rcases old with _ | ⟨o, os⟩
  · exact absurd rfl hold
  rw [pyReplace]
  have hlen : ((o :: os) ++ t).length = os.length + t.length + 1 := by
    simp [List.length_append]
  rw [hlen, List.cons_append, replaceAllFuel]
  have hsw : startsWith (o :: os) (o :: (os ++ t)) = true := by
    rw [← List.cons_append]
    exact startsWith_append_self _ _
  rw [hsw]
  simp only [List.isEmpty_cons, Bool.not_false, Bool.and_self, if_true]
  have hdrop : List.drop (o :: os).length (o :: (os ++ t)) = t := by
    simp only [List.length_cons, List.drop_succ_cons]
    exact List.drop_left os t
  rw [hdrop]
  rw [replaceAllFuel_eq_pyReplace _ _ hold t _ (by omega)]

/-- `str.replace` on a string without the pattern is the identity. -/
theorem pyReplace_of_noOccur (old new s : Str) (h : occursIn old s = false) :
    pyReplace s old new = s :=
  replaceAllFuel_of_noOccur old new s s.length h

/-- C10 counterexample: with the configured base URL already ending in
`/graphql`, the diagnostic `test_subscription_query` (which appends
`/graphql` unconditionally, `diagnostics.py` lines 49-52) connects to
`wss://host/graphql/graphql`, while the subscription loop derives
`wss://host/graphql` — the two URLs differ. -/
theorem diag_url_differs_counterexample :
    diagWsUrl (str "https://host/graphql") = str "wss://host/graphql/graphql" ∧
    managerWsUrl (str "https://host/graphql") = str "wss://host/graphql" ∧
    diagWsUrl (str "https://host/graphql")
      ≠ managerWsUrl (str "https://host/graphql") :=
  ⟨by decide, by decide, by decide⟩

/-- C10 (amended): the diagnostic's WebSocket URL agrees with the
subscription loop's for `https://` base URLs whose remainder contains no
further scheme occurrence and whose substituted form neither ends in
`/graphql` nor in a trailing slash; but for base URLs already ending in
`/graphql`, or carrying a trailing slash, the two derivations differ. -/
theorem diag_url_agreement (h : Str)
    (hnos : occursIn httpsScheme h = false)
    (hnoh : occursIn httpScheme (wssScheme ++ h) = false)
    (hend : endsWith graphqlSuffix (wssScheme ++ h) = false)
    (hslash : rstripSlash (wssScheme ++ h) = wssScheme ++ h) :
    diagWsUrl (httpsScheme ++ h) = managerWsUrl (httpsScheme ++ h) ∧
    diagWsUrl (str "https://host/graphql")
      ≠ managerWsUrl (str "https://host/graphql") ∧
    diagWsUrl (str "https://host/") ≠ managerWsUrl (str "https://host/") := by
  refine ⟨?_, by decide, by decide⟩
  have hvalid : httpsScheme ≠ [] := by decide
  have hdiag : diagWsUrl (httpsScheme ++ h) = wssScheme ++ h ++ graphqlSuffix := by
    rw [diagWsUrl, pyReplace_head_self _ _ _ hvalid, pyReplace_of_noOccur _ _ _ hnos,
      pyReplace_of_noOccur _ _ _ hnoh]
  have hman : managerWsUrl (httpsScheme ++ h) = wssScheme ++ h ++ graphqlSuffix := by
    rw [managerWsUrl, schemeToWs_https, hend]
    simp [hslash]
  rw [hdiag, hman]

/-- Witness for C10's amended theorem at host `host`. -/
theorem diag_url_agreement_witness :
    diagWsUrl (httpsScheme ++ str "host") = managerWsUrl (httpsScheme ++ str "host") ∧
    diagWsUrl (str "https://host/graphql")
      ≠ managerWsUrl (str "https://host/graphql") ∧
    diagWsUrl (str "https://host/") ≠ managerWsUrl (str "https://host/") :=
  diag_url_agreement (str "host") (by decide) (by decide) (by decide) (by decide)

end UnraidMCP

